import Mathlib

/-!
Shallow embedding of the AI-Powered System Configuration Manager
(`windows_config_manager.py`, `streamlit_config_app.py`, `dashboard.py`).

Metric percentages are Python floats in the source; they are modelled here
as rationals (ℚ).  Process and history collections are Lean lists in the
order the source enumerates or appends them.  The OS-metric acquisition
(psutil) and the sklearn estimators are external capabilities: the former
appears as explicit inputs (a snapshot, an enumeration of processes), the
latter as a parameter record `MLBackend` whose fields stand for
`StandardScaler.fit`/`transform` and `DecisionTreeClassifier.fit`/`predict`.
-/

namespace ConfigMgr

/-- One metrics record, as built by `collect_system_metrics` /
`collect_metrics`: the dict with keys `timestamp`, `cpu_percent`,
`memory_percent`, `memory_available_gb`, `disk_percent`, `process_count`,
`cpu_freq`. -/
structure Snapshot where
  timestamp : String
  cpu_percent : ℚ
  memory_percent : ℚ
  memory_available_gb : ℚ
  disk_percent : ℚ
  process_count : ℕ
  cpu_freq : ℚ
deriving DecidableEq, Repr

/-- The four state labels returned by `analyze_system_state`
(`windows_config_manager.py` lines 38-51, `dashboard.py` lines 306-317;
the streamlit copy renames IDLE to OPTIMAL and HIGH_LOAD to "HIGH LOAD"
but uses the same thresholds). -/
inductive SystemState where
  | IDLE
  | MODERATE
  | HIGH_LOAD
  | CRITICAL
deriving DecidableEq, Repr

open SystemState

/-- Embedding of `analyze_system_state(self, metrics)`:
```
cpu = metrics['cpu_percent']
mem = metrics['memory_percent']
if cpu > 80 or mem > 85:   return "CRITICAL"
elif cpu > 60 or mem > 70: return "HIGH_LOAD"
elif cpu > 30 or mem > 50: return "MODERATE"
else:                      return "IDLE"
``` -/
def analyze_system_state (metrics : Snapshot) : SystemState :=
  let cpu := metrics.cpu_percent
  let mem := metrics.memory_percent
  if cpu > 80 ∨ mem > 85 then CRITICAL
  else if cpu > 60 ∨ mem > 70 then HIGH_LOAD
  else if cpu > 30 ∨ mem > 50 then MODERATE
  else IDLE

/-- A snapshot holding the given cpu and memory percentages and neutral
values elsewhere; the classifier reads only `cpu_percent` and
`memory_percent`. -/
def snapOf (cpu mem : ℚ) : Snapshot :=
  { timestamp := ""
    cpu_percent := cpu
    memory_percent := mem
    memory_available_gb := 0
    disk_percent := 0
    process_count := 0
    cpu_freq := 0 }

/-- Severity rank of a state, following the spec ordering
IDLE < MODERATE < HIGH_LOAD < CRITICAL. -/
def severityRank : SystemState → ℕ
  | IDLE => 0
  | MODERATE => 1
  | HIGH_LOAD => 2
  | CRITICAL => 3

/-- One entry of the list built by `get_top_processes`:
`{'name': info['name'], 'cpu': info['cpu_percent'], 'memory': info['memory_percent']}`. -/
structure ProcSample where
  name : String
  cpu : ℚ
  memory : ℚ
deriving DecidableEq, Repr

/-- The sort key of `processes.sort(key=lambda x: x['cpu'] + x['memory'], reverse=True)`. -/
def procKey (p : ProcSample) : ℚ := p.cpu + p.memory

/-- The comparison under which Python's stable sort with `reverse=True`
orders the process list: `a` may come before `b` exactly when
`procKey b ≤ procKey a` (descending; ties keep original order, as
CPython's Timsort with `reverse=True` does). -/
def procGE (a b : ProcSample) : Bool := decide (procKey b ≤ procKey a)

/-- Embedding of `get_top_processes(self, n=5)` (`windows_config_manager.py` lines
112-129, `dashboard.py` lines 355-370).  The psutil enumeration is the
input list `enumerated`, in enumeration order, with processes that
vanished or were inaccessible already skipped (the `except ... pass`).
The body filters entries with `cpu_percent > 0 or memory_percent > 0`,
sorts by `cpu + memory` descending with a stable sort, and takes the
first `n`. -/
def get_top_processes (enumerated : List ProcSample) (n : ℕ) : List ProcSample :=
  let processes := enumerated.filter (fun p => decide (0 < p.cpu) || decide (0 < p.memory))
  (processes.mergeSort procGE).take n

/-- The priority strings used by `get_recommendations`. -/
inductive Priority where
  | LOW
  | MEDIUM
  | HIGH
  | CRITICAL
deriving DecidableEq, Repr

/-- The dict built by `WindowsConfigManager.get_recommendations`:
`{'state': ..., 'actions': [...], 'priority': ...}`. -/
structure Recommendation where
  state : SystemState
  actions : List String
  priority : Priority
deriving DecidableEq, Repr

/-- Rendering of a number to one decimal place, standing for Python's
`f"{x:.1f}"` interpolation in the advisory strings (ties are resolved
upward here; the exact digits play no role in any claim). -/
def fmt1 (q : ℚ) : String :=
  let n : ℤ := round (q * 10)
  toString (n / 10) ++ "." ++ toString (n % 10)

/-- The two metric-readout lines every branch of `get_recommendations`
ends its template with. -/
def readoutLines (metrics : Snapshot) : List String :=
  ["📊 Memory Usage: " ++ fmt1 metrics.memory_percent ++ "%",
   "📊 CPU Usage: " ++ fmt1 metrics.cpu_percent ++ "%"]

/-- Embedding of `WindowsConfigManager.get_recommendations(self, metrics, state)`
(lines 53-110).  The initial dict sets `priority` to `'LOW'`; the
`if/elif/elif/else` on the state string overwrites `priority` and
`actions` (the `else` branch is the IDLE case); finally the top-5
process list (from the psutil enumeration `enumerated`) is appended
when non-empty. -/
def get_recommendations (enumerated : List ProcSample) (metrics : Snapshot)
    (state : SystemState) : Recommendation :=
  let branch : Priority × List String :=
    match state with
    | CRITICAL =>
      (Priority.CRITICAL,
       ["⚠️ CRITICAL: System under heavy load",
        "🔴 Close unnecessary applications immediately",
        "🔴 Disable startup programs",
        "🔴 Clear temporary files",
        "🔴 Restart high-memory processes"] ++ readoutLines metrics)
    | HIGH_LOAD =>
      (Priority.HIGH,
       ["⚡ System experiencing high load",
        "🟡 Consider closing browser tabs",
        "🟡 Disable background apps",
        "🟡 Check for Windows updates running"] ++ readoutLines metrics)
    | MODERATE =>
      (Priority.MEDIUM,
       ["✅ System running normally",
        "🟢 Performance optimizations available",
        "🟢 Consider disk cleanup if needed"] ++ readoutLines metrics)
    | IDLE =>
      (Priority.LOW,
       ["✅ System running optimally",
        "🟢 No immediate actions needed",
        "🟢 Good time for maintenance tasks"] ++ readoutLines metrics)
  let top_processes := get_top_processes enumerated 5
  let actions :=
    if top_processes.isEmpty then branch.2
    else branch.2 ++ ["\n🔍 Top Resource Consumers:"] ++
      top_processes.map (fun proc =>
        "   • " ++ proc.name ++ ": CPU " ++ fmt1 proc.cpu ++ "% | RAM " ++
          fmt1 proc.memory ++ "%")
  { state := state, actions := actions, priority := branch.1 }

/-- The 1:1 state-to-priority assignment the four branches of
`get_recommendations` perform. -/
def priorityOf : SystemState → Priority
  | CRITICAL => Priority.CRITICAL
  | HIGH_LOAD => Priority.HIGH
  | MODERATE => Priority.MEDIUM
  | IDLE => Priority.LOW

namespace Streamlit

/-- Embedding of `ConfigManager.save_metrics(self, metrics)` in
`streamlit_config_app.py` (lines 159-171), restricted to its effect on
the in-memory history:
```
self.metrics_history.append(metrics)
if len(self.metrics_history) > 100:
    self.metrics_history = self.metrics_history[-100:]
```
(`history[-100:]` keeps the last 100 entries, i.e. drops
`len - 100` from the front). -/
def save_metrics (metrics_history : List Snapshot) (metrics : Snapshot) :
    List Snapshot :=
  let h := metrics_history ++ [metrics]
  if 100 < h.length then h.drop (h.length - 100) else h

end Streamlit

namespace Windows

/-- The append `self.metrics_history.append(metrics)` performed by
`WindowsConfigManager.run_monitoring` (line 262): a plain tail append
with no trimming anywhere in the class. -/
def monitoring_append (metrics_history : List Snapshot) (metrics : Snapshot) :
    List Snapshot :=
  metrics_history ++ [metrics]

end Windows

/-! ### Persistence of the metrics history

`save_metrics` writes `json.dump(self.metrics_history, f)`;
`load_metrics` reads the file back.  The file contents are modelled at
the JSON level: `JVal` is the parsed JSON value, and `StoredContent`
distinguishes the four situations `load_metrics` discriminates
(file absent; present with blank content; present but
`json.loads` raises `JSONDecodeError`; present and parsed). -/

/-- A JSON value as produced and consumed by `json.dump`/`json.loads`
(numbers as exact rationals, which Python round-trips faithfully). -/
inductive JVal where
  | jnum (q : ℚ)
  | jstr (s : String)
  | jarr (elems : List JVal)
  | jobj (fields : List (String × JVal))
deriving Repr

/-- JSON encoding of one metrics record (the dict `json.dump` writes). -/
def encodeSnapshot (m : Snapshot) : JVal :=
  .jobj [("timestamp", .jstr m.timestamp),
         ("cpu_percent", .jnum m.cpu_percent),
         ("memory_percent", .jnum m.memory_percent),
         ("memory_available_gb", .jnum m.memory_available_gb),
         ("disk_percent", .jnum m.disk_percent),
         ("process_count", .jnum (m.process_count : ℚ)),
         ("cpu_freq", .jnum m.cpu_freq)]

/-- JSON encoding of the whole history list. -/
def encodeHistory (h : List Snapshot) : JVal :=
  .jarr (h.map encodeSnapshot)

/-- Dictionary lookup on a JSON object's fields. -/
def jlookup (fields : List (String × JVal)) (k : String) : Option JVal :=
  (fields.find? (fun kv => kv.1 == k)).map Prod.snd

/-- Read a JSON value as a number. -/
def asNum : JVal → Option ℚ
  | .jnum q => some q
  | _ => none

/-- Read a JSON value as a string. -/
def asStr : JVal → Option String
  | .jstr s => some s
  | _ => none

/-- Read a JSON value as a non-negative integer. -/
def asNat (j : JVal) : Option ℕ :=
  match j with
  | .jnum q => if q.den = 1 ∧ 0 ≤ q.num then some q.num.toNat else none
  | _ => none

/-- The typed reading of one JSON metrics record, inverse to
`encodeSnapshot`; used to state that the persisted and restored
histories are equal as values. -/
def decodeSnapshot (j : JVal) : Option Snapshot :=
  match j with
  | .jobj fields => do
    let ts ← jlookup fields "timestamp" >>= asStr
    let cpu ← jlookup fields "cpu_percent" >>= asNum
    let mem ← jlookup fields "memory_percent" >>= asNum
    let avail ← jlookup fields "memory_available_gb" >>= asNum
    let disk ← jlookup fields "disk_percent" >>= asNum
    let pc ← jlookup fields "process_count" >>= asNat
    let freq ← jlookup fields "cpu_freq" >>= asNum
    pure { timestamp := ts, cpu_percent := cpu, memory_percent := mem,
           memory_available_gb := avail, disk_percent := disk,
           process_count := pc, cpu_freq := freq }
  | _ => none

/-- The typed reading of a persisted history, inverse to `encodeHistory`. -/
def decodeHistory (j : JVal) : Option (List Snapshot) :=
  match j with
  | .jarr elems => elems.mapM decodeSnapshot
  | _ => none

/-- The state of the backing file as `load_metrics` discriminates it:
`absent` — `os.path.exists` is false; `emptyFile` — the file exists but
`f.read().strip()` is falsy; `malformed` — non-blank content on which
`json.loads` raises `JSONDecodeError`; `parsed j` — `json.loads`
succeeds with value `j`. -/
inductive StoredContent where
  | absent
  | emptyFile
  | malformed
  | parsed (j : JVal)

namespace Windows

/-- Embedding of `WindowsConfigManager.save_metrics(self)` (lines 190-193): opens the
file for writing (truncating) and dumps the entire current history, so
the stored content becomes the parse of exactly that list. -/
def save_metrics_file (metrics_history : List Snapshot) : StoredContent :=
  .parsed (encodeHistory metrics_history)

/-- Embedding of `WindowsConfigManager.load_metrics(self)` (lines 195-211) as a
function of the prior in-memory history (a raw JSON value, since the
code assigns `self.metrics_history = json.loads(content)` without
validation) and the stored content.  Absent file: the history is left
as it was (a message is printed).  Blank content or `JSONDecodeError`:
the history is reset to `[]` with a warning.  Successful parse: the
parsed value is installed. -/
def load_metrics (prior : JVal) : StoredContent → JVal
  | .absent => prior
  | .emptyFile => .jarr []
  | .malformed => .jarr []
  | .parsed j => j

end Windows

/-! ### Model training and prediction

`StandardScaler` and `DecisionTreeClassifier` are sklearn, external to
this repository; they enter the embedding as the parameter record
`MLBackend`.  `scalerFit X` stands for the `transform` method of a
`StandardScaler` after `fit(X)`; `treeFit X y` stands for the
single-sample `predict` of a `DecisionTreeClassifier(max_depth=4,
random_state=42)` after `fit(X, y)`. -/

structure MLBackend where
  scalerFit : List (List ℚ) → (List ℚ → List ℚ)
  treeFit : List (List ℚ) → List ℕ → (List ℚ → ℕ)

/-- The feature vector `train_model` and `predict_state` build from a
record: `[cpu_percent, memory_percent, disk_percent, process_count]`. -/
def featuresOf (entry : Snapshot) : List ℚ :=
  [entry.cpu_percent, entry.memory_percent, entry.disk_percent,
   (entry.process_count : ℚ)]

/-- The label dict of `train_model`:
`{'IDLE': 0, 'MODERATE': 1, 'HIGH_LOAD': 2, 'CRITICAL': 3}`. -/
def state_map : SystemState → ℕ
  | IDLE => 0
  | MODERATE => 1
  | HIGH_LOAD => 2
  | CRITICAL => 3

/-- The reverse dict of `predict_state`:
`{0: 'IDLE', 1: 'MODERATE', 2: 'HIGH_LOAD', 3: 'CRITICAL'}`; indexing
it with a key outside 0..3 would raise `KeyError`, hence the `Option`. -/
def state_unmap : ℕ → Option SystemState
  | 0 => some IDLE
  | 1 => some MODERATE
  | 2 => some HIGH_LOAD
  | 3 => some CRITICAL
  | _ => none

namespace Windows

/-- The pickled payload `{'model': self.model, 'scaler': self.scaler}`
written to `config_model.pkl`. -/
structure PersistedModel where
  model : List ℚ → ℕ
  scaler : List ℚ → List ℚ

/-- The fields of `WindowsConfigManager` the training claims touch:
the history, the current model (`None` until trained or loaded), the
scaler's transform, and the persisted model file. -/
structure MgrState where
  metrics_history : List Snapshot
  model : Option (List ℚ → ℕ)
  scaler : List ℚ → List ℚ
  model_file : Option PersistedModel

/-- Embedding of `WindowsConfigManager.train_model(self)` (lines 131-170).  Fewer
than 10 history entries: prints the insufficiency warning and returns
`False`, touching nothing.  Otherwise: builds `X` from the feature
vectors and `y` from the rule-engine labels of each history entry, fits
the scaler on `X`, fits the depth-4 tree on the scaled features and
`y`, pickles both, and returns `True`.  The returned string is the
message the code prints. -/
def train_model (B : MLBackend) (st : MgrState) : MgrState × Bool × String :=
  if st.metrics_history.length < 10 then
    (st, false, "⚠️  Not enough data to train model (need at least 10 samples)")
  else
    let X := st.metrics_history.map featuresOf
    let y := st.metrics_history.map (fun entry => state_map (analyze_system_state entry))
    let scaler := B.scalerFit X
    let X_scaled := X.map scaler
    let model := B.treeFit X_scaled y
    ({ st with model := some model, scaler := scaler,
               model_file := some { model := model, scaler := scaler } },
     true, "✅ ML Model trained successfully!")

/-- Embedding of `WindowsConfigManager.predict_state(self, metrics)` (lines 172-188).
`self.model is None` returns `None` (`Except.ok none`); otherwise the
feature vector is scaled, the tree predicts a class index, and the
reverse state dict is indexed — a key outside 0..3 would raise
`KeyError`, modelled as `Except.error` carrying the offending index. -/
def predict_state (st : MgrState) (metrics : Snapshot) :
    Except ℕ (Option SystemState) :=
  match st.model with
  | none => .ok none
  | some mdl =>
    let prediction := mdl (st.scaler (featuresOf metrics))
    match state_unmap prediction with
    | some s => .ok (some s)
    | none => .error prediction

end Windows

/-- A minimal concrete stand-in for the sklearn backend, used to
instantiate the parameterized theorems on concrete inputs: the fitted
scaler's transform is the identity and the fitted tree always predicts
the first training label (so it predicts a label present in the
training set, as a fitted classifier does). -/
def headBackend : MLBackend where
  scalerFit := fun _ => id
  treeFit := fun _ y _ => y.headD 0

/-- A manager state with nine idle history entries and no model. -/
def idleState9 : Windows.MgrState where
  metrics_history := List.replicate 9 (snapOf 0 0)
  model := none
  scaler := id
  model_file := none

/-- A manager state with ten idle history entries and no model. -/
def idleState10 : Windows.MgrState where
  metrics_history := List.replicate 10 (snapOf 0 0)
  model := none
  scaler := id
  model_file := none

/-- A concrete process sample: cpu 1, memory 0. -/
def procA : ProcSample := { name := "a", cpu := 1, memory := 0 }

/-- A concrete process sample: cpu 0, memory 1 (ties with `procA` on
`cpu + memory`). -/
def procB : ProcSample := { name := "b", cpu := 0, memory := 1 }

/-! ## Theorems -/

/-- Unfolding equation for the classifier, shared by the cascade,
boundary and monotonicity proofs. -/
theorem analyze_eq (m : Snapshot) :
    analyze_system_state m =
      (if 80 < m.cpu_percent ∨ 85 < m.memory_percent then SystemState.CRITICAL
       else if 60 < m.cpu_percent ∨ 70 < m.memory_percent then SystemState.HIGH_LOAD
       else if 30 < m.cpu_percent ∨ 50 < m.memory_percent then SystemState.MODERATE
       else SystemState.IDLE) := rfl

/-- C2: for cpu and memory percentages in [0,100] the classifier returns
exactly one of the four states by the first-match cascade — CRITICAL iff
cpu > 80 or mem > 85, else HIGH_LOAD iff cpu > 60 or mem > 70, else
MODERATE iff cpu > 30 or mem > 50, else IDLE — and the thresholds are
strict: cpu = 80 gives HIGH_LOAD while cpu = 80.0001 gives CRITICAL, and
analogously at the 60/30 cpu and 85/70/50 memory boundaries. -/
theorem classify_cascade_and_boundaries (cpu mem : ℚ)
    (hcpu : 0 ≤ cpu ∧ cpu ≤ 100) (hmem : 0 ≤ mem ∧ mem ≤ 100) :
    (analyze_system_state (snapOf cpu mem) = .CRITICAL ∨
     analyze_system_state (snapOf cpu mem) = .HIGH_LOAD ∨
     analyze_system_state (snapOf cpu mem) = .MODERATE ∨
     analyze_system_state (snapOf cpu mem) = .IDLE) ∧
    (analyze_system_state (snapOf cpu mem) = .CRITICAL ↔ (80 < cpu ∨ 85 < mem)) ∧
    (¬(80 < cpu ∨ 85 < mem) →
      (analyze_system_state (snapOf cpu mem) = .HIGH_LOAD ↔ (60 < cpu ∨ 70 < mem))) ∧
    (¬(80 < cpu ∨ 85 < mem) → ¬(60 < cpu ∨ 70 < mem) →
      (analyze_system_state (snapOf cpu mem) = .MODERATE ↔ (30 < cpu ∨ 50 < mem))) ∧
    (¬(80 < cpu ∨ 85 < mem) → ¬(60 < cpu ∨ 70 < mem) → ¬(30 < cpu ∨ 50 < mem) →
      analyze_system_state (snapOf cpu mem) = .IDLE) ∧
    analyze_system_state (snapOf 80 0) = .HIGH_LOAD ∧
    analyze_system_state (snapOf (800001/10000) 0) = .CRITICAL ∧
    analyze_system_state (snapOf 60 0) = .MODERATE ∧
    analyze_system_state (snapOf (600001/10000) 0) = .HIGH_LOAD ∧
    analyze_system_state (snapOf 30 0) = .IDLE ∧
    analyze_system_state (snapOf (300001/10000) 0) = .MODERATE ∧
    analyze_system_state (snapOf 0 85) = .HIGH_LOAD ∧
    analyze_system_state (snapOf 0 (850001/10000)) = .CRITICAL ∧
    analyze_system_state (snapOf 0 70) = .MODERATE ∧
    analyze_system_state (snapOf 0 (700001/10000)) = .HIGH_LOAD ∧
    analyze_system_state (snapOf 0 50) = .IDLE ∧
    analyze_system_state (snapOf 0 (500001/10000)) = .MODERATE := by
  have bdy : ∀ c m : ℚ, analyze_system_state (snapOf c m) =
      (if 80 < c ∨ 85 < m then SystemState.CRITICAL
       else if 60 < c ∨ 70 < m then SystemState.HIGH_LOAD
       else if 30 < c ∨ 50 < m then SystemState.MODERATE
       else SystemState.IDLE) := fun c m => rfl
  refine ⟨?_, ?_, ?_, ?_, ?_,
    by rw [bdy]; norm_num, by rw [bdy]; norm_num, by rw [bdy]; norm_num,
    by rw [bdy]; norm_num, by rw [bdy]; norm_num, by rw [bdy]; norm_num,
    by rw [bdy]; norm_num, by rw [bdy]; norm_num, by rw [bdy]; norm_num,
    by rw [bdy]; norm_num, by rw [bdy]; norm_num, by rw [bdy]; norm_num⟩ <;>
    rw [analyze_eq] <;> simp only [snapOf]
  · split_ifs <;> simp
  · split_ifs with h1 h2 h3 <;> simp_all
  · intro h1
    split_ifs with h2 h3 <;> simp_all
  · intro h1 h2
    split_ifs with h3 <;> simp_all
  · intro h1 h2 h3
    split_ifs <;> simp_all

/-- Witness for C2 at cpu = 0, mem = 0: the cascade falls through to
IDLE. -/
theorem classify_cascade_and_boundaries_witness :
    analyze_system_state (snapOf 0 0) = .IDLE :=
  (classify_cascade_and_boundaries 0 0 (by decide) (by decide)).2.2.2.2.1
    (by decide) (by decide) (by decide)

/-- C3: every recommendation built by `get_recommendations` carries the
state it was given and the priority in 1:1 correspondence with it —
CRITICAL→CRITICAL, HIGH_LOAD→HIGH, MODERATE→MEDIUM, IDLE→LOW, the map is
injective — so no recommendation it produces has CRITICAL state and a
non-CRITICAL priority. -/
theorem recommendation_priority_correspondence :
    (∀ (enumerated : List ProcSample) (metrics : Snapshot) (state : SystemState),
      (get_recommendations enumerated metrics state).state = state ∧
      (get_recommendations enumerated metrics state).priority = priorityOf state) ∧
    priorityOf .CRITICAL = .CRITICAL ∧
    priorityOf .HIGH_LOAD = .HIGH ∧
    priorityOf .MODERATE = .MEDIUM ∧
    priorityOf .IDLE = .LOW ∧
    (∀ s t : SystemState, priorityOf s = priorityOf t → s = t) ∧
    (∀ (enumerated : List ProcSample) (metrics : Snapshot) (state : SystemState),
      (get_recommendations enumerated metrics state).state = .CRITICAL →
      (get_recommendations enumerated metrics state).priority = .CRITICAL) := by
  have base : ∀ (e : List ProcSample) (m : Snapshot) (s : SystemState),
      (get_recommendations e m s).state = s ∧
      (get_recommendations e m s).priority = priorityOf s := by
    intro e m s
    cases s <;> simp [get_recommendations, priorityOf]
  refine ⟨base, rfl, rfl, rfl, rfl, ?_, ?_⟩
  · intro s t h
    cases s <;> cases t <;> simp_all [priorityOf]
  · intro e m s hs
    have hb := base e m s
    rw [hb.1] at hs
    rw [hb.2, hs]
    rfl

/-- Witness for C3: a concretely built CRITICAL recommendation has
CRITICAL priority. -/
theorem recommendation_priority_correspondence_witness :
    (get_recommendations [] (snapOf 90 50) .CRITICAL).priority = .CRITICAL :=
  recommendation_priority_correspondence.2.2.2.2.2.2 [] (snapOf 90 50)
    .CRITICAL (recommendation_priority_correspondence.1 [] (snapOf 90 50) .CRITICAL).1

/-- C8: the classifier is monotone in each resource under the severity
ranking IDLE < MODERATE < HIGH_LOAD < CRITICAL — for fixed memory,
raising cpu never lowers the rank, and symmetrically for memory. -/
theorem classify_monotone :
    (∀ m₁ m₂ : Snapshot, m₁.memory_percent = m₂.memory_percent →
      m₁.cpu_percent ≤ m₂.cpu_percent →
      severityRank (analyze_system_state m₁) ≤ severityRank (analyze_system_state m₂)) ∧
    (∀ m₁ m₂ : Snapshot, m₁.cpu_percent = m₂.cpu_percent →
      m₁.memory_percent ≤ m₂.memory_percent →
      severityRank (analyze_system_state m₁) ≤ severityRank (analyze_system_state m₂)) := by
  constructor <;>
    (intro m₁ m₂ heq hle
     rw [analyze_eq m₁, analyze_eq m₂]
     split_ifs <;>
       simp only [severityRank] <;>
       first
         | omega
         | (exfalso; push_neg at *; casesm* _ ∨ _, _ ∧ _ <;> linarith))

/-- Witness for C8: rank at cpu = 10 is below rank at cpu = 90 (memory
fixed at 0). -/
theorem classify_monotone_witness :
    severityRank (analyze_system_state (snapOf 10 0)) ≤
      severityRank (analyze_system_state (snapOf 90 0)) :=
  classify_monotone.1 (snapOf 10 0) (snapOf 90 0) (by decide) (by decide)

/-- The function `Streamlit.save_metrics` keeps the last 100 of the appended list. -/
theorem save_metrics_eq_drop (h : List Snapshot) (m : Snapshot) :
    Streamlit.save_metrics h m = (h ++ [m]).drop ((h.length + 1) - 100) := by
  show (if 100 < (h ++ [m]).length then
          (h ++ [m]).drop ((h ++ [m]).length - 100) else h ++ [m]) =
        (h ++ [m]).drop ((h.length + 1) - 100)
  have hlen : (h ++ [m]).length = h.length + 1 := by simp
  rw [hlen]
  split_ifs with hgt
  · rfl
  · have : h.length + 1 - 100 = 0 := by omega
    simp [this]

/-- The in-memory history never exceeds 100 entries after a
`Streamlit.save_metrics` call. -/
theorem length_save_metrics_le (h : List Snapshot) (m : Snapshot) :
    (Streamlit.save_metrics h m).length ≤ 100 := by
  rw [save_metrics_eq_drop]
  simp only [List.length_drop, List.length_append, List.length_cons,
    List.length_nil]
  omega

/-- Folding `Streamlit.save_metrics` over a batch of snapshots keeps the
suffix of the concatenation that fits in the 100-entry window. -/
theorem foldl_save_metrics (l : List Snapshot) :
    ∀ h : List Snapshot, h.length ≤ 100 →
      List.foldl Streamlit.save_metrics h l =
        (h ++ l).drop ((h.length + l.length) - 100) := by
  induction l with
  | nil =>
    intro h hh
    simp only [List.foldl_nil, List.append_nil, List.length_nil, Nat.add_zero]
    rw [Nat.sub_eq_zero_of_le (by omega), List.drop_zero]
  | cons m l ih =>
    intro h hh
    rw [List.foldl_cons, ih (Streamlit.save_metrics h m) (length_save_metrics_le h m),
      save_metrics_eq_drop]
    have hd : h.length + 1 - 100 ≤ (h ++ [m]).length := by simp; omega
    rw [List.length_drop, ← List.drop_append_of_le_length hd, List.drop_drop]
    have e1 : (h ++ [m]) ++ l = h ++ m :: l := by simp
    rw [e1]
    congr 1
    simp only [List.length_append, List.length_cons, List.length_nil]
    omega

/-- C1 (amended): for the streamlit `ConfigManager.save_metrics` the
claim holds — after every append the history has at most 100 entries,
and appending 150 snapshots to an empty history leaves exactly the last
100 in append order; the windows manager's monitoring loop, by
contrast, appends with no eviction (see
`windows_history_append_unbounded`). -/
theorem streamlit_history_bound_and_fifo :
    (∀ (h : List Snapshot) (m : Snapshot),
      (Streamlit.save_metrics h m).length ≤ 100) ∧
    (∀ l : List Snapshot, l.length = 150 →
      List.foldl Streamlit.save_metrics [] l = l.drop 50 ∧
      (List.foldl Streamlit.save_metrics [] l).length = 100) := by
  refine ⟨length_save_metrics_le, fun l hl => ?_⟩
  have h0 : ([] : List Snapshot).length ≤ 100 := by simp
  rw [foldl_save_metrics l [] h0]
  constructor
  · simp [hl]
  · simp [hl]

/-- Witness for C1's amended statement: 150 appends of a fixed snapshot
leave exactly 100 entries. -/
theorem streamlit_history_bound_and_fifo_witness :
    (List.foldl Streamlit.save_metrics []
      (List.replicate 150 (snapOf 0 0))).length = 100 :=
  (streamlit_history_bound_and_fifo.2 (List.replicate 150 (snapOf 0 0))
    (by simp)).2

/-- C1 (counterexample): the windows manager's append has no bound — 150
appends to an empty history leave 150 entries, violating
`len ≤ 100 after each append`. -/
theorem windows_history_append_unbounded :
    ¬((List.foldl Windows.monitoring_append []
        (List.replicate 150 (snapOf 0 0))).length ≤ 100) := by
  have acc : ∀ (l h : List Snapshot),
      List.foldl Windows.monitoring_append h l = h ++ l := by
    intro l
    induction l with
    | nil => simp
    | cons a l ih =>
      intro h
      rw [List.foldl_cons]
      show List.foldl Windows.monitoring_append (Windows.monitoring_append h a) l = _
      rw [ih (Windows.monitoring_append h a)]
      simp [Windows.monitoring_append]
  rw [acc]
  simp

/-- C9: `train_model` never changes the metrics history — on the
insufficient-samples path the state is returned untouched, and on the
success path only `model`, `scaler` and the persisted model file are
updated. -/
theorem train_model_preserves_history (B : MLBackend) (st : Windows.MgrState) :
    (Windows.train_model B st).1.metrics_history = st.metrics_history := by
  unfold Windows.train_model
  split_ifs <;> rfl

/-- C4: `get_top_processes` returns at most `n` entries, each with
cpu > 0 or memory > 0, sorted by `cpu + memory` descending; the result
is the `n`-prefix of the stable sort of the filtered enumeration, and
any two qualifying entries with equal `cpu + memory` appear in the
sorted sequence in their original enumeration order. -/
theorem top_processes_spec (enumerated : List ProcSample) (n : ℕ) :
    (get_top_processes enumerated n).length ≤ n ∧
    (∀ p ∈ get_top_processes enumerated n, 0 < p.cpu ∨ 0 < p.memory) ∧
    (get_top_processes enumerated n).Pairwise (fun a b => procKey b ≤ procKey a) ∧
    get_top_processes enumerated n =
      ((enumerated.filter
          (fun p => decide (0 < p.cpu) || decide (0 < p.memory))).mergeSort
        procGE).take n ∧
    (∀ p q : ProcSample, procKey p = procKey q →
      List.Sublist [p, q] (enumerated.filter
        (fun p => decide (0 < p.cpu) || decide (0 < p.memory))) →
      List.Sublist [p, q] ((enumerated.filter
        (fun p => decide (0 < p.cpu) || decide (0 < p.memory))).mergeSort
          procGE)) := by
  have htrans : ∀ a b c : ProcSample, procGE a b → procGE b c → procGE a c := by
    intro a b c hab hbc
    simp only [procGE, decide_eq_true_eq] at *
    exact le_trans hbc hab
  have htotal : ∀ a b : ProcSample, procGE a b || procGE b a := by
    intro a b
    simp only [procGE, Bool.or_eq_true, decide_eq_true_eq]
    exact le_total _ _
  refine ⟨?_, ?_, ?_, rfl, ?_⟩
  · simp only [get_top_processes, List.length_take]
    exact Nat.min_le_left _ _
  · intro p hp
    have h1 : p ∈ (enumerated.filter
        (fun p => decide (0 < p.cpu) || decide (0 < p.memory))).mergeSort procGE :=
      List.mem_of_mem_take hp
    have h2 := List.mem_mergeSort.mp h1
    have h3 := List.of_mem_filter h2
    simpa using h3
  · have hs := List.sorted_mergeSort htrans htotal
      (enumerated.filter (fun p => decide (0 < p.cpu) || decide (0 < p.memory)))
    have hres := List.Pairwise.sublist (List.take_sublist n _) hs
    exact hres.imp (by intro a b hab; simpa [procGE] using hab)
  · intro p q hk hsub
    exact List.pair_sublist_mergeSort htrans htotal
      (by simp [procGE]; exact le_of_eq hk.symm) hsub

/-- Witness for C4: the two tied samples `procA`, `procB` keep their
enumeration order through the sort. -/
theorem top_processes_spec_witness :
    List.Sublist [procA, procB] (([procA, procB].filter
      (fun p => decide (0 < p.cpu) || decide (0 < p.memory))).mergeSort
        procGE) :=
  (top_processes_spec [procA, procB] 5).2.2.2.2 procA procB
    (by norm_num [procKey, procA, procB])
    (by
      rw [show [procA, procB].filter
          (fun p => decide (0 < p.cpu) || decide (0 < p.memory)) =
          [procA, procB] from rfl])

/-- C5: `train_model` fails exactly when the history has fewer than 10
entries (so 9 entries fail), reporting the insufficiency message; on
failure the whole state — model, scaler, persisted model file — is
returned untouched, and with at least 10 entries it succeeds and
installs a model. -/
theorem train_model_insufficient_samples_spec (B : MLBackend)
    (st : Windows.MgrState) :
    ((Windows.train_model B st).2.1 = false ↔ st.metrics_history.length < 10) ∧
    (st.metrics_history.length < 10 →
      Windows.train_model B st =
        (st, false,
         "⚠️  Not enough data to train model (need at least 10 samples)")) ∧
    (st.metrics_history.length = 9 → (Windows.train_model B st).2.1 = false) ∧
    (10 ≤ st.metrics_history.length →
      (Windows.train_model B st).2.1 = true ∧
      ∃ mdl, (Windows.train_model B st).1.model = some mdl) ∧
    ((Windows.train_model B st).2.1 = false →
      (Windows.train_model B st).1 = st) := by
  unfold Windows.train_model
  split_ifs with h
  · exact ⟨by simp [h], fun _ => rfl, fun _ => rfl,
      fun h10 => absurd h (by omega), fun _ => rfl⟩
  · exact ⟨by simp [h], fun hlt => absurd hlt h,
      fun h9 => absurd (by omega : st.metrics_history.length < 10) h,
      fun _ => ⟨rfl, ⟨_, rfl⟩⟩, by simp⟩

/-- Witness for C5: nine samples are rejected. -/
theorem train_model_insufficient_samples_spec_witness :
    (Windows.train_model headBackend idleState9).2.1 = false :=
  (train_model_insufficient_samples_spec headBackend idleState9).2.2.1
    (by simp [idleState9])

/-- Decoding inverts encoding on a single metrics record. -/
theorem decodeSnapshot_encodeSnapshot (m : Snapshot) :
    decodeSnapshot (encodeSnapshot m) = some m := by
  simp [decodeSnapshot, encodeSnapshot, jlookup, asStr, asNum, asNat,
    List.find?]

/-- Decoding inverts encoding on a whole history. -/
theorem decodeHistory_encodeHistory (h : List Snapshot) :
    decodeHistory (encodeHistory h) = some h := by
  induction h with
  | nil => rfl
  | cons m t ih =>
    have ih' : (List.map encodeSnapshot t).mapM decodeSnapshot = some t := ih
    show (encodeSnapshot m :: List.map encodeSnapshot t).mapM decodeSnapshot =
      some (m :: t)
    rw [List.mapM_cons, decodeSnapshot_encodeSnapshot, ih']
    rfl

/-- C6: restoring right after persisting returns the persisted history —
`save_metrics` overwrites the stored content with the serialization of
the whole history, `load_metrics` reads exactly that value back, and it
decodes to the original list. -/
theorem metrics_roundtrip (h : List Snapshot) (hne : h ≠ []) (prior : JVal) :
    Windows.load_metrics prior (Windows.save_metrics_file h) = encodeHistory h ∧
    decodeHistory (encodeHistory h) = some h :=
  ⟨rfl, decodeHistory_encodeHistory h⟩

/-- Witness for C6 on a one-element history. -/
theorem metrics_roundtrip_witness :
    Windows.load_metrics (JVal.jarr [])
        (Windows.save_metrics_file [snapOf 0 0]) =
      encodeHistory [snapOf 0 0] ∧
    decodeHistory (encodeHistory [snapOf 0 0]) = some [snapOf 0 0] :=
  metrics_roundtrip [snapOf 0 0] (by simp) (JVal.jarr [])

/-- C7: `load_metrics` is total and falls back to the empty log — at
startup (in-memory history empty) an absent file leaves the empty log,
blank content or a `JSONDecodeError` resets to the empty log with a
warning, and for every stored content the function returns a value
rather than raising. -/
theorem load_metrics_total_fallback (prior : JVal) (c : StoredContent) :
    Windows.load_metrics (encodeHistory []) .absent = encodeHistory [] ∧
    Windows.load_metrics prior .emptyFile = encodeHistory [] ∧
    Windows.load_metrics prior .malformed = encodeHistory [] ∧
    ∃ v, Windows.load_metrics prior c = v :=
  ⟨rfl, rfl, rfl, ⟨_, rfl⟩⟩

/-- Unfolding equation for `predict_state` when a model is installed. -/
theorem predict_state_some (st : Windows.MgrState) (metrics : Snapshot)
    (mdl : List ℚ → ℕ) (hm : st.model = some mdl) :
    Windows.predict_state st metrics =
      match state_unmap (mdl (st.scaler (featuresOf metrics))) with
      | some s => .ok (some s)
      | none => .error (mdl (st.scaler (featuresOf metrics))) := by
  unfold Windows.predict_state
  rw [hm]

/-- C10: with no model `predict_state` returns `None`; whenever the
model came from `train_model` (whose fitted tree predicts one of its
training labels), the predicted class index is one of the labels
0..3 used in training, so the reverse class-to-state lookup succeeds
and the result is one of the four states. -/
theorem predict_state_total_after_training (B : MLBackend)
    (hB : ∀ (X : List (List ℚ)) (y : List ℕ) (x : List ℚ),
      y ≠ [] → B.treeFit X y x ∈ y) :
    (∀ (st : Windows.MgrState) (m : Snapshot), st.model = none →
      Windows.predict_state st m = .ok none) ∧
    (∀ (st : Windows.MgrState) (m : Snapshot),
      (Windows.train_model B st).2.1 = true →
      ∃ (mdl : List ℚ → ℕ) (s : SystemState),
        (Windows.train_model B st).1.model = some mdl ∧
        mdl ((Windows.train_model B st).1.scaler (featuresOf m)) = state_map s ∧
        state_map s ≤ 3 ∧
        state_unmap (state_map s) = some s ∧
        Windows.predict_state (Windows.train_model B st).1 m = .ok (some s)) := by
  constructor
  · intro st m hnone
    unfold Windows.predict_state
    rw [hnone]
  · intro st m hok
    by_cases hlen : st.metrics_history.length < 10
    · exfalso
      unfold Windows.train_model at hok
      rw [if_pos hlen] at hok
      simp at hok
    · have hne : st.metrics_history ≠ [] := by
        intro he
        rw [he] at hlen
        simp at hlen
      have hmodel : (Windows.train_model B st).1.model =
          some (B.treeFit
            ((st.metrics_history.map featuresOf).map
              (B.scalerFit (st.metrics_history.map featuresOf)))
            (st.metrics_history.map
              (fun entry => state_map (analyze_system_state entry)))) := by
        unfold Windows.train_model
        rw [if_neg hlen]
      have hscaler : (Windows.train_model B st).1.scaler =
          B.scalerFit (st.metrics_history.map featuresOf) := by
        unfold Windows.train_model
        rw [if_neg hlen]
      have hyne : st.metrics_history.map
          (fun entry => state_map (analyze_system_state entry)) ≠ [] := by
        simpa using hne
      have hmem := hB
        ((st.metrics_history.map featuresOf).map
          (B.scalerFit (st.metrics_history.map featuresOf)))
        (st.metrics_history.map
          (fun entry => state_map (analyze_system_state entry)))
        (B.scalerFit (st.metrics_history.map featuresOf) (featuresOf m))
        hyne
      obtain ⟨e, he, hpe⟩ := List.mem_map.mp hmem
      refine ⟨_, analyze_system_state e, hmodel, ?_, ?_, ?_, ?_⟩
      · rw [hscaler]
        exact hpe.symm
      · cases analyze_system_state e <;> simp [state_map]
      · cases analyze_system_state e <;> rfl
      · rw [predict_state_some _ _ _ hmodel, hscaler, ← hpe]
        cases analyze_system_state e <;> rfl

/-- Witness for C10: the no-model case on a concrete state, through the
concrete backend. -/
theorem predict_state_total_after_training_witness :
    Windows.predict_state idleState10 (snapOf 0 0) = .ok none :=
  (predict_state_total_after_training headBackend
    (by
      intro X y x hy
      cases y with
      | nil => exact absurd rfl hy
      | cons a t => simp [headBackend])).1
    idleState10 (snapOf 0 0) rfl

end ConfigMgr
